import Mathlib

/-!
Verification of the order-reconciliation, catalog-cleanup and inventory-sync
logic of the Shopify/Odoo connector (src/app.py, src/odoo_client.py).

The Python code is shallowly embedded as pure Lean functions:
  * the Odoo database reachable through OdooClient is an explicit ErpState
    (partners, products, sale orders) threaded through the functions;
  * Python float arithmetic on prices/discounts is modeled as exact rational
    arithmetic over the kernel-computable fraction type Frac (every concrete
    value appearing in the claims is exactly representable);
  * exceptions raised by ERP calls are modeled by a Faults oracle saying which
    call raises; a caught exception follows the except-branch of the source,
    an uncaught one is an Except.error result (the state at the raise point is
    kept, since ERP side effects are external and are not rolled back);
  * the module-level set active_processing_ids together with its mutex is the
    active_processing_ids list of SysState; the try/finally of
    process_order_data is the explicit erase after the body runs;
  * the local SQLAlchemy tables (CustomerMap, SyncLog) and log_event calls are
    not part of the ERP state and are elided; where the source only logs and
    continues, the embedding just continues.
-/

namespace Connector

/-- Exact fractions: numerator and denominator, kept in lowest terms with a
positive denominator by the smart constructor. Used to model Python float
arithmetic on prices and discounts. A denominator of 0 is never produced by
the smart constructor on nonzero input denominators. -/
structure Frac where
  num : Int
  den : Nat
deriving Repr, DecidableEq

/-- Build a normalized fraction n / d (sign moved to the numerator, divided
by the gcd). -/
def Frac.mk' (n d : Int) : Frac :=
  if d = 0 then ⟨0, 0⟩
  else
    let n1 : Int := if d < 0 then -n else n
    let dn : Nat := d.natAbs
    let g : Nat := Nat.gcd n1.natAbs dn
    ⟨n1 / (g : Int), dn / g⟩

instance (n : Nat) : OfNat Frac n := ⟨⟨(n : Int), 1⟩⟩

/-- Multiplication of fractions. -/
def Frac.mul (a b : Frac) : Frac :=
  Frac.mk' (a.num * b.num) ((a.den : Int) * (b.den : Int))

/-- Division of fractions (the embedding always tests the divisor against 0
first, mirroring the ZeroDivisionError behavior of Python). -/
def Frac.div (a b : Frac) : Frac :=
  Frac.mk' (a.num * (b.den : Int)) ((a.den : Int) * b.num)

/-- Strict order test a > b by cross multiplication. -/
def Frac.gt (a b : Frac) : Bool :=
  b.num * (a.den : Int) < a.num * (b.den : Int)

/-- Embed an integer (used for the int(quantity) value of a line item). -/
def Frac.ofInt (n : Int) : Frac := ⟨n, 1⟩

/-! ## ERP data model (the Odoo records touched by the connector) -/

/-- A res.partner record (only the fields the connector reads or writes). -/
structure Partner where
  id : Nat
  name : Option String
  email : Option String
  parent_id : Option Nat
  user_id : Option Nat
  company_id : Option Nat
  phone : Option String
  street : Option String
  city : Option String
  zip : Option String
  active : Bool
deriving Repr, DecidableEq

/-- A product.product record (only the fields the connector touches). -/
structure Product where
  id : Nat
  name : String
  default_code : Option String
  list_price : Frac
  company_id : Option Nat
  active : Bool
deriving Repr, DecidableEq

/-- One sale.order.line value as built by process_order_data. -/
structure OrderLine where
  product_id : Nat
  product_uom_qty : Int
  price_unit : Frac
  name : String
  discount : Frac
deriving Repr, DecidableEq

/-- A sale.order record (only the fields the connector reads or writes, plus
note and the message log, which claims C2 and C7 talk about). -/
structure SaleOrder where
  id : Nat
  name : String
  client_order_ref : String
  partner_id : Nat
  partner_invoice_id : Nat
  partner_shipping_id : Nat
  user_id : Nat
  state : String
  order_line : List OrderLine
  note : Option String
  messages : List String
  company_id : Option Nat
deriving Repr, DecidableEq

/-- The ERP database state reachable through OdooClient. Records are only
ever appended by this connector; next_id supplies fresh record ids. -/
structure ErpState where
  partners : List Partner
  products : List Product
  orders : List SaleOrder
  next_id : Nat
deriving Repr, DecidableEq

/-- Process-wide state: the in-flight order-id registry (module-level
active_processing_ids set in app.py) plus the ERP database. -/
structure SysState where
  active_processing_ids : List String
  erp : ErpState
deriving Repr, DecidableEq

/-! ## Shopify order payload (the fields process_order_data reads, plus the
fields the payload carries that the function never reads, such as
shipping_lines and note). An Option String value of none stands for a
missing or empty (falsy) field of the JSON payload. -/

/-- One entry of the line_items array. -/
structure LineItem where
  sku : Option String
  name : String
  quantity : Int
  price : Frac
  total_discount : Frac
deriving Repr, DecidableEq

/-- One entry of the shipping_lines array. process_order_data never reads
this array. -/
structure ShippingLine where
  title : String
  price : Frac
deriving Repr, DecidableEq

/-- An address block of the payload. -/
structure Address where
  name : Option String
  address1 : Option String
  city : Option String
  zip : Option String
  country_code : Option String
deriving Repr, DecidableEq

/-- The customer block of the payload. -/
structure CustomerInfo where
  id : Option Nat
  first_name : String
  last_name : String
  phone : Option String
deriving Repr, DecidableEq

/-- The order webhook payload. The id field is str(data.get('id', '')). -/
structure ShopifyOrder where
  id : String
  name : String
  email : Option String
  contact_email : Option String
  customer : Option CustomerInfo
  billing_address : Option Address
  shipping_address : Option Address
  note : Option String
  line_items : List LineItem
  shipping_lines : List ShippingLine
deriving Repr, DecidableEq

/-! ## Fault oracle: which ERP calls raise an exception on this run. The
calls the source wraps in try/except follow the except branch; the
sale.order read of the update path is not wrapped, so its failure is an
uncaught exception. -/

/-- Which ERP calls fail during one process_order_data run. -/
structure Faults where
  search_order_fails : Bool
  create_partner_fails : Bool
  create_product_fails : Bool
  read_state_fails : Bool
  update_order_fails : Bool
  create_order_fails : Bool
deriving Repr, DecidableEq

/-- The fault-free run. -/
def noFaults : Faults := ⟨false, false, false, false, false, false⟩

/-- Connector configuration: the odoo_company_id setting, the company of the
connector user (used as fallback when the setting is absent) and the
connector ERP user id odoo.uid. -/
structure Config where
  odoo_company_id : Option Nat
  user_company_id : Option Nat
  uid : Nat
deriving Repr, DecidableEq

/-! ## OdooClient search/create helpers (src/odoo_client.py), embedded as
functions over ErpState implementing the Odoo search domains the client
builds. -/

/-- Does a record with company field pc match the company filter of the
domain: no filter when no company is configured, otherwise own company or
no company (the or-branch the client appends). -/
def company_matches (company_id : Option Nat) (pc : Option Nat) : Bool :=
  match company_id with
  | none => true
  | some c => pc == some c || pc == none

/-- OdooClient.search_product_by_sku: first product matching the sku that is
active, within company scope; returns its id. -/
def search_product_by_sku (erp : ErpState) (sku : String) (company_id : Option Nat) :
    Option Nat :=
  (erp.products.find? (fun p =>
    p.default_code == some sku && p.active && company_matches company_id p.company_id)).map
    (fun p => p.id)

/-- OdooClient.check_product_exists_by_sku: like search_product_by_sku but
with the domain or-branch active in true or false, i.e. archived products
also match. -/
def check_product_exists_by_sku (erp : ErpState) (sku : String) (company_id : Option Nat) :
    Option Nat :=
  (erp.products.find? (fun p =>
    p.default_code == some sku && company_matches company_id p.company_id)).map
    (fun p => p.id)

/-- OdooClient.search_partner_by_email: first active partner with this email
(strictly active domain). -/
def search_partner_by_email (erp : ErpState) (email : Option String) : Option Partner :=
  erp.partners.find? (fun p => p.email == email && p.active)

/-- OdooClient.get_partner_salesperson: the user_id field of the partner
record with the given id. -/
def get_partner_salesperson (erp : ErpState) (partner_id : Nat) : Option Nat :=
  (erp.partners.find? (fun p => p.id == partner_id)).bind (fun p => p.user_id)

/-! ## process_order_data (src/app.py lines 235-407) -/

/-- The discount computation of the line-building loop (app.py line 343):
pct is disc / (price * qty) * 100 when price > 0 else 0.0. Python raises
ZeroDivisionError when the guard passes but price * qty is zero; that raise
is the none result. -/
def discount_pct (price : Frac) (qty : Int) (disc : Frac) : Option Frac :=
  if price.gt 0 then
    if price.mul (Frac.ofInt qty) == 0 then none
    else some ((disc.div (price.mul (Frac.ofInt qty))).mul 100)
  else some 0

/-- The partner reference the resolution step yields: the record id and its
parent link (the source keeps the whole record; only these fields are read
afterwards). -/
structure PartnerRef where
  id : Nat
  parent_id : Option Nat
deriving Repr, DecidableEq

/-- Step 3 of process_order_data (customer resolution, app.py lines 268-296):
look the partner up by email; if absent create a company-type partner from
the customer block and the first available address block. A failing create
call is caught and yields none (the Customer Error return). The country_code
resolution of _resolve_country and the local CustomerMap row are elided
(neither is read by any claim). -/
def resolve_customer (f : Faults) (company_id : Option Nat) (email : Option String)
    (data : ShopifyOrder) (erp : ErpState) : ErpState × Option PartnerRef :=
  match search_partner_by_email erp email with
  | some p => (erp, some ⟨p.id, p.parent_id⟩)
  | none =>
    if f.create_partner_fails then (erp, none)
    else
      let cust := data.customer
      let def_address := (data.billing_address <|> data.shipping_address)
      let first := (cust.map (fun c => c.first_name)).getD ""
      let last := (cust.map (fun c => c.last_name)).getD ""
      let full := (first ++ " " ++ last).trim
      let pname : Option String :=
        if full = "" then ((def_address.bind (fun a => a.name)) <|> email) else some full
      let newP : Partner :=
        { id := erp.next_id, name := pname, email := email, parent_id := none,
          user_id := none, company_id := company_id,
          phone := cust.bind (fun c => c.phone),
          street := def_address.bind (fun a => a.address1),
          city := def_address.bind (fun a => a.city),
          zip := def_address.bind (fun a => a.zip),
          active := true }
      ({ erp with partners := erp.partners ++ [newP], next_id := erp.next_id + 1 },
       some ⟨erp.next_id, none⟩)

/-- The product-resolution part of one line-building iteration (app.py lines
314-337): search the active product by sku; if absent check for an archived
one and leave the product unset when found (the item is then skipped with a
warning); if entirely absent create the product (a caught create failure
leaves the product unset) and search again. -/
def line_find_or_create (f : Faults) (company_id : Option Nat) (item : LineItem)
    (sku : String) (erp : ErpState) : ErpState × Option Nat :=
  match search_product_by_sku erp sku company_id with
  | some pid => (erp, some pid)
  | none =>
    match check_product_exists_by_sku erp sku company_id with
    | some _ => (erp, none)
    | none =>
      if f.create_product_fails then (erp, none)
      else
        let newProd : Product :=
          { id := erp.next_id, name := item.name, default_code := some sku,
            list_price := item.price, company_id := company_id, active := true }
        let erp2 : ErpState :=
          { erp with products := erp.products ++ [newProd], next_id := erp.next_id + 1 }
        (erp2, search_product_by_sku erp2 sku company_id)

/-- One iteration of the line-building loop of step 4 (app.py lines 310-353):
skip items without sku; resolve the product; build the order-line tuple,
computing the discount percentage (whose division can raise). -/
def line_step (f : Faults) (company_id : Option Nat) (item : LineItem) (erp : ErpState) :
    ErpState × Except String (Option OrderLine) :=
  match item.sku with
  | none => (erp, .ok none)
  | some sku =>
    match line_find_or_create f company_id item sku erp with
    | (erp1, some pid) =>
      match discount_pct item.price item.quantity item.total_discount with
      | none => (erp1, .error "ZeroDivisionError")
      | some pct =>
        (erp1, .ok (some { product_id := pid, product_uom_qty := item.quantity,
                           price_unit := item.price, name := item.name, discount := pct }))
    | (erp1, none) => (erp1, .ok none)

/-- The whole line-building loop of step 4. -/
def build_lines (f : Faults) (company_id : Option Nat) :
    List LineItem → ErpState → ErpState × Except String (List OrderLine)
  | [], erp => (erp, .ok [])
  | item :: rest, erp =>
    match line_step f company_id item erp with
    | (erp1, .error e) => (erp1, .error e)
    | (erp1, .ok olOpt) =>
      match build_lines f company_id rest erp1 with
      | (erp2, .error e) => (erp2, .error e)
      | (erp2, .ok ls) => (erp2, .ok (olOpt.toList ++ ls))

/-- The external reference: client_ref equals the fixed prefix ONLINE_
followed by the order name (app.py line 249). -/
def client_ref (data : ShopifyOrder) : String := "ONLINE_" ++ data.name

/-- The email the reconciler works with: data.get('email') or
data.get('contact_email') (app.py line 248). -/
def effective_email (data : ShopifyOrder) : Option String :=
  data.email <|> data.contact_email

/-- The company scope: the odoo_company_id setting, else the company of the
connector user (app.py lines 250-257). -/
def effective_company (cfg : Config) : Option Nat :=
  cfg.odoo_company_id <|> cfg.user_company_id

/-- The write of the update path (app.py lines 369-377): order_line is the
wholesale replacement (5,0,0) plus the new lines, and the two partner
address fields are set; every other field of the record (state, note,
message log, client_order_ref, ...) is untouched. -/
def updated_order (partner_id : Nat) (lines : List OrderLine) (o : SaleOrder) : SaleOrder :=
  { o with order_line := lines,
           partner_shipping_id := partner_id,
           partner_invoice_id := partner_id }

/-- The sale.order vals of the create path (app.py lines 386-393). -/
def new_sale_order (cfg : Config) (data : ShopifyOrder) (partner_id sales_rep_id : Nat)
    (lines : List OrderLine) (oid : Nat) : SaleOrder :=
  { id := oid, name := client_ref data, client_order_ref := client_ref data,
    partner_id := partner_id, partner_invoice_id := partner_id,
    partner_shipping_id := partner_id, user_id := sales_rep_id,
    state := "draft", order_line := lines, note := none, messages := [],
    company_id := effective_company cfg }

/-- The state read of the update path (app.py lines 361-363): the state of
the record read by id, or unknown when the read returns nothing. -/
def order_state_read (erp : ErpState) (oid : Nat) : String :=
  ((erp.orders.find? (fun o => o.id == oid)).map (fun o => o.state)).getD "unknown"

/-- Step 5 of process_order_data (sync logic, app.py lines 357-401): with an
existing order id, read its state, skip terminal orders, otherwise write the
wholesale line replacement plus partner_shipping_id/partner_invoice_id (the
update writes nothing else: no note, no posted message); without one, create
the new draft order. The shipping and invoice targets are both the resolved
partner id (app.py lines 304-306). -/
def sync_step (f : Faults) (cfg : Config) (data : ShopifyOrder) (existing : Option Nat)
    (partner_id sales_rep_id : Nat) (lines : List OrderLine) (erp2 : ErpState) :
    ErpState × Except String (Bool × String) :=
  match existing with
  | some oid =>
    if f.read_state_fails then (erp2, .error "read state failed") else
    let st := order_state_read erp2 oid
    if st == "done" || st == "cancel" then (erp2, .ok (true, "Skipped"))
    else if f.update_order_fails then (erp2, .ok (false, "Update Error"))
    else
      ({ erp2 with orders := erp2.orders.map (fun o =>
           if o.id == oid then updated_order partner_id lines o else o) },
       .ok (true, "Updated"))
  | none =>
    if f.create_order_fails then (erp2, .ok (false, "Create Error"))
    else
      ({ erp2 with
           orders := erp2.orders ++
             [new_sale_order cfg data partner_id sales_rep_id lines erp2.next_id],
           next_id := erp2.next_id + 1 },
       .ok (true, "Synced"))

/-- The body of process_order_data inside the try block (steps 2-5 of
app.py lines 247-401), acting on the ERP state. The pair component is the
(bool, message) return value of the Python function, or an error for an
uncaught exception. The error-message details interpolated by the source
are elided; the distinguishing literals Skipped, Updated, Synced and
No valid lines are kept verbatim. -/
def process_body (f : Faults) (cfg : Config) (data : ShopifyOrder) (erp : ErpState) :
    ErpState × Except String (Bool × String) :=
  if f.search_order_fails then (erp, .ok (false, "Odoo Error")) else
  let existing := (erp.orders.find? (fun o => o.client_order_ref == client_ref data)).map
    (fun o => o.id)
  match resolve_customer f (effective_company cfg) (effective_email data) data erp with
  | (erp1, none) => (erp1, .ok (false, "Customer Error"))
  | (erp1, some pref) =>
    let partner_id := pref.parent_id.getD pref.id
    let sales_rep_id := (get_partner_salesperson erp1 partner_id).getD cfg.uid
    match build_lines f (effective_company cfg) data.line_items erp1 with
    | (erp2, .error e) => (erp2, .error e)
    | (erp2, .ok lines) =>
      if lines.isEmpty then (erp2, .ok (false, "No valid lines")) else
      sync_step f cfg data existing partner_id sales_rep_id lines erp2

/-- process_order_data (app.py lines 235-407): the concurrency guard around
the body, with the finally block that always releases the in-flight id that
this call registered. -/
def process_order_data (f : Faults) (cfg : Config) (data : ShopifyOrder) (s : SysState) :
    SysState × Except String (Bool × String) :=
  let shopify_id := data.id
  if s.active_processing_ids.contains shopify_id then
    (s, .ok (false, "Skipped"))
  else
    let registered := shopify_id :: s.active_processing_ids
    match process_body f cfg data s.erp with
    | (erp1, res) =>
      ({ active_processing_ids := registered.erase shopify_id, erp := erp1 }, res)

/-! ## cleanup_shopify_products (app.py lines 409-462) -/

/-- A storefront (Shopify) product as the cleanup pass sees it: the sku of
its first variant (none when there is no variant or the sku is falsy) and
its status string. -/
structure SfProduct where
  sku : Option String
  status : String
deriving Repr, DecidableEq

/-- The scan loop of cleanup_shopify_products with its seen_skus accumulator:
a product whose sku is not in the ERP-active list, or already seen in this
pass, is archived; otherwise its sku is recorded as seen. -/
def cleanup_go (odoo_active_skus : List String) (seen_skus : List String) :
    List SfProduct → List SfProduct
  | [] => []
  | sp :: rest =>
    match sp.sku with
    | none => sp :: cleanup_go odoo_active_skus seen_skus rest
    | some sku =>
      if !(odoo_active_skus.contains sku) || seen_skus.contains sku then
        { sp with status := "archived" } :: cleanup_go odoo_active_skus seen_skus rest
      else
        sp :: cleanup_go odoo_active_skus (sku :: seen_skus) rest

/-- cleanup_shopify_products: run the scan with an empty seen set. -/
def cleanup_shopify_products (odoo_active_skus : List String) (ps : List SfProduct) :
    List SfProduct :=
  cleanup_go odoo_active_skus [] ps

/-- Does a cleanup-result entry count as an active listing of sku k. -/
def active_with_sku (p : SfProduct) (k : String) : Bool :=
  p.status == "active" && p.sku == some k

/-! ## perform_inventory_sync per-product decision (app.py lines 830-849) -/

/-- What the inventory loop does with one changed product. -/
inductive InvAction where
  | skip_zero
  | skip_no_sku
  | skip_no_variant
  | push (qty : Int)
  | no_change
deriving Repr, DecidableEq

/-- The per-product decision of perform_inventory_sync: with the computed
Odoo total quantity, the sync_zero_stock setting, the product sku and the
storefront quantity found for that sku, decide whether the product is
skipped, pushed or left alone. The source line is
if sync_zero and total_odoo <= 0: continue. -/
def inventory_sync_step (sync_zero : Bool) (total_odoo : Int) (sku : Option String)
    (shopify_qty : Option Int) : InvAction :=
  if sync_zero && total_odoo ≤ 0 then .skip_zero
  else
    match sku with
    | none => .skip_no_sku
    | some _ =>
      match shopify_qty with
      | none => .skip_no_variant
      | some q => if q != total_odoo then .push total_odoo else .no_change

/-- Count of orders carrying a given client_order_ref. -/
def order_ref_count (erp : ErpState) (r : String) : Nat :=
  erp.orders.countP (fun o => o.client_order_ref == r)

/-! ## Concrete instances used by the scenario and witness theorems: the
end-to-end order number 1001 scenario of the spec (a parent-linked partner
matched by email, one X1 line item with quantity 2, price 10, discount 4,
one Standard shipping line priced 5) and small states around it. -/

def cfg4 : Config := { odoo_company_id := none, user_company_id := none, uid := 7 }

def parentP : Partner :=
  { id := 1, name := some "Acme", email := none, parent_id := none, user_id := some 5,
    company_id := none, phone := none, street := none, city := none, zip := none,
    active := true }

def childP : Partner :=
  { id := 2, name := some "Bob", email := some "a@b.com", parent_id := some 1,
    user_id := none, company_id := none, phone := none, street := none, city := none,
    zip := none, active := true }

def prodX1 : Product :=
  { id := 10, name := "X1 Widget", default_code := some "X1", list_price := 10,
    company_id := none, active := true }

def order1001 : ShopifyOrder :=
  { id := "5001", name := "#1001", email := some "a@b.com", contact_email := none,
    customer := some { id := some 9, first_name := "Bo", last_name := "B", phone := none },
    billing_address := none, shipping_address := none, note := some "pay by card",
    line_items := [{ sku := some "X1", name := "X1 Widget", quantity := 2, price := 10,
                     total_discount := 4 }],
    shipping_lines := [{ title := "Standard", price := 5 }] }

def s4 : SysState :=
  { active_processing_ids := [],
    erp := { partners := [parentP, childP], products := [prodX1], orders := [],
             next_id := 100 } }

def old_line : OrderLine :=
  { product_id := 99, product_uom_qty := 1, price_unit := 5, name := "Old",
    discount := 0 }

def o20 : SaleOrder :=
  { id := 20, name := "ONLINE_#1001", client_order_ref := "ONLINE_#1001",
    partner_id := 2, partner_invoice_id := 2, partner_shipping_id := 2, user_id := 7,
    state := "draft", order_line := [old_line], note := some "old note", messages := [],
    company_id := none }

def s7 : SysState := { s4 with erp := { s4.erp with orders := [o20] } }

def oDone : SaleOrder := { o20 with state := "done" }

def sDone : SysState := { s4 with erp := { s4.erp with orders := [oDone] } }

def order1002 : ShopifyOrder := { order1001 with email := some "new@x.com" }

def sBusy : SysState := { s4 with active_processing_ids := ["5001"] }

def archProd : Product :=
  { id := 3, name := "ArchWidget", default_code := some "A1", list_price := 5,
    company_id := none, active := false }

def erpA : ErpState := { partners := [], products := [archProd], orders := [], next_id := 50 }

def itemA : LineItem :=
  { sku := some "A1", name := "ArchWidget", quantity := 1, price := 5,
    total_discount := 0 }

def psW : List SfProduct :=
  [ { sku := some "A", status := "active" }, { sku := some "A", status := "active" },
    { sku := some "B", status := "active" }, { sku := none, status := "active" },
    { sku := some "A", status := "draft" } ]

/-! ## Helper lemmas: state effects of the embedded operations -/

theorem search_product_by_sku_spec {erp : ErpState} {sku : String} {c : Option Nat}
    {pid : Nat} (h : search_product_by_sku erp sku c = some pid) :
    ∃ p ∈ erp.products, p.id = pid ∧ p.active = true := by
  unfold search_product_by_sku at h
  obtain ⟨p, hfind, hid⟩ := Option.map_eq_some'.mp h
  have hpred := List.find?_some hfind
  have hmem := List.mem_of_find?_eq_some hfind
  simp only [Bool.and_eq_true] at hpred
  exact ⟨p, hmem, hid, hpred.1.2⟩

theorem line_find_or_create_state (f : Faults) (c : Option Nat) (item : LineItem)
    (sku : String) (erp : ErpState) :
    (line_find_or_create f c item sku erp).1 = erp ∨
    ∃ pr : Product, (line_find_or_create f c item sku erp).1 =
      { erp with products := erp.products ++ [pr], next_id := erp.next_id + 1 } := by
  unfold line_find_or_create
  rcases h1 : search_product_by_sku erp sku c with _ | pid
  · dsimp only
    rcases h2 : check_product_exists_by_sku erp sku c with _ | aid
    · dsimp only
      split
      · exact Or.inl rfl
      · exact Or.inr ⟨_, rfl⟩
    · exact Or.inl rfl
  · exact Or.inl rfl

theorem line_step_state (f : Faults) (c : Option Nat) (item : LineItem) (erp : ErpState) :
    (line_step f c item erp).1 = erp ∨
    ∃ pr : Product, (line_step f c item erp).1 =
      { erp with products := erp.products ++ [pr], next_id := erp.next_id + 1 } := by
  unfold line_step
  rcases hsku : item.sku with _ | sku
  · left; rfl
  · rcases hl : line_find_or_create f c item sku erp with ⟨erp1, pidOpt⟩
    have hst := line_find_or_create_state f c item sku erp
    rw [hl] at hst
    rcases pidOpt with _ | pid
    · simp only [hl]
      exact hst
    · rcases hd : discount_pct item.price item.quantity item.total_discount with _ | pct <;>
        simp only [hl, hd] <;> exact hst

theorem build_lines_effect (f : Faults) (c : Option Nat) :
    ∀ (items : List LineItem) (erp : ErpState),
    (build_lines f c items erp).1.orders = erp.orders ∧
    (build_lines f c items erp).1.partners = erp.partners ∧
    erp.products <+: (build_lines f c items erp).1.products := by
  intro items
  induction items with
  | nil => intro erp; exact ⟨rfl, rfl, List.prefix_refl _⟩
  | cons item rest ih =>
    intro erp
    unfold build_lines
    rcases hs : line_step f c item erp with ⟨erp1, res⟩
    have hstep := line_step_state f c item erp
    rw [hs] at hstep
    have h1o : erp1.orders = erp.orders := by
      rcases hstep with h | ⟨pr, h⟩ <;> simp [show (erp1, res).1 = erp1 from rfl] at h <;>
        rw [h]
    have h1p : erp1.partners = erp.partners := by
      rcases hstep with h | ⟨pr, h⟩ <;> simp at h <;> rw [h]
    have h1pr : erp.products <+: erp1.products := by
      rcases hstep with h | ⟨pr, h⟩ <;> simp at h
      · rw [h]
      · rw [h]; exact ⟨[pr], rfl⟩
    rcases res with e | olOpt
    · simp only [hs]
      exact ⟨h1o, h1p, h1pr⟩
    · simp only [hs]
      rcases hb : build_lines f c rest erp1 with ⟨erp2, res2⟩
      have ih2 := ih erp1
      rw [hb] at ih2
      rcases res2 with e2 | ls <;> simp only [hb] <;>
        exact ⟨ih2.1.trans h1o, ih2.2.1.trans h1p, h1pr.trans ih2.2.2⟩

theorem resolve_customer_state (f : Faults) (c : Option Nat) (email : Option String)
    (data : ShopifyOrder) (erp : ErpState) :
    ((resolve_customer f c email data erp).1 = erp ∧
      ((∃ p, search_partner_by_email erp email = some p ∧
          (resolve_customer f c email data erp).2 = some ⟨p.id, p.parent_id⟩) ∨
        (resolve_customer f c email data erp).2 = none)) ∨
    ∃ q : Partner, (resolve_customer f c email data erp).1 =
      { erp with partners := erp.partners ++ [q], next_id := erp.next_id + 1 } ∧
      (resolve_customer f c email data erp).2 = some ⟨erp.next_id, none⟩ := by
  unfold resolve_customer
  rcases h : search_partner_by_email erp email with _ | p
  · dsimp only
    split
    · exact Or.inl ⟨rfl, Or.inr rfl⟩
    · exact Or.inr ⟨_, rfl, rfl⟩
  · exact Or.inl ⟨rfl, Or.inl ⟨p, rfl, rfl⟩⟩

theorem resolve_customer_orders (f : Faults) (c : Option Nat) (email : Option String)
    (data : ShopifyOrder) (erp : ErpState) :
    (resolve_customer f c email data erp).1.orders = erp.orders := by
  rcases resolve_customer_state f c email data erp with ⟨h, _⟩ | ⟨q, h, _⟩ <;> rw [h]

theorem resolve_customer_products (f : Faults) (c : Option Nat) (email : Option String)
    (data : ShopifyOrder) (erp : ErpState) :
    (resolve_customer f c email data erp).1.products = erp.products := by
  rcases resolve_customer_state f c email data erp with ⟨h, _⟩ | ⟨q, h, _⟩ <;> rw [h]

theorem resolve_customer_partners_prefix (f : Faults) (c : Option Nat)
    (email : Option String) (data : ShopifyOrder) (erp : ErpState) :
    erp.partners <+: (resolve_customer f c email data erp).1.partners := by
  rcases resolve_customer_state f c email data erp with ⟨h, _⟩ | ⟨q, h, _⟩
  · rw [h]
  · rw [h]; exact ⟨[q], rfl⟩

theorem resolve_customer_none_fault {f : Faults} {c : Option Nat} {email : Option String}
    {data : ShopifyOrder} {erp : ErpState}
    (h : (resolve_customer f c email data erp).2 = none) :
    f.create_partner_fails = true := by
  unfold resolve_customer at h
  rcases hs : search_partner_by_email erp email with _ | p
  · rw [hs] at h
    dsimp only at h
    by_cases hf : f.create_partner_fails = true
    · exact hf
    · rw [if_neg hf] at h
      cases h
  · rw [hs] at h
    cases h

theorem resolve_customer_created (f : Faults) (c : Option Nat) (email : Option String)
    (data : ShopifyOrder) (erp : ErpState)
    (hs : search_partner_by_email erp email = none)
    (hf : f.create_partner_fails = false) :
    (resolve_customer f c email data erp).1.partners.length = erp.partners.length + 1 ∧
    (resolve_customer f c email data erp).2 = some ⟨erp.next_id, none⟩ := by
  unfold resolve_customer
  rw [hs]
  dsimp only
  rw [if_neg (by simp [hf])]
  exact ⟨by simp, rfl⟩

theorem sync_step_cases (f : Faults) (cfg : Config) (data : ShopifyOrder)
    (existing : Option Nat) (partner_id sales_rep_id : Nat) (lines : List OrderLine)
    (erp2 : ErpState) :
    (∃ oid, existing = some oid ∧ f.read_state_fails = true ∧
       sync_step f cfg data existing partner_id sales_rep_id lines erp2 =
         (erp2, .error "read state failed")) ∨
    (∃ oid, existing = some oid ∧
       (order_state_read erp2 oid == "done" || order_state_read erp2 oid == "cancel") = true ∧
       sync_step f cfg data existing partner_id sales_rep_id lines erp2 =
         (erp2, .ok (true, "Skipped"))) ∨
    (∃ oid, existing = some oid ∧ f.update_order_fails = true ∧
       sync_step f cfg data existing partner_id sales_rep_id lines erp2 =
         (erp2, .ok (false, "Update Error"))) ∨
    (∃ oid, existing = some oid ∧
       (order_state_read erp2 oid == "done" || order_state_read erp2 oid == "cancel") = false ∧
       f.update_order_fails = false ∧
       sync_step f cfg data existing partner_id sales_rep_id lines erp2 =
         ({ erp2 with orders := erp2.orders.map (fun o =>
              if o.id == oid then updated_order partner_id lines o else o) },
          .ok (true, "Updated"))) ∨
    (existing = none ∧ f.create_order_fails = true ∧
       sync_step f cfg data existing partner_id sales_rep_id lines erp2 =
         (erp2, .ok (false, "Create Error"))) ∨
    (existing = none ∧
       sync_step f cfg data existing partner_id sales_rep_id lines erp2 =
         ({ erp2 with
              orders := erp2.orders ++
                [new_sale_order cfg data partner_id sales_rep_id lines erp2.next_id],
              next_id := erp2.next_id + 1 },
          .ok (true, "Synced"))) := by
  unfold sync_step
  rcases existing with _ | oid
  · dsimp only
    by_cases hc : f.create_order_fails = true
    · rw [if_pos hc]
      exact Or.inr (Or.inr (Or.inr (Or.inr (Or.inl ⟨rfl, hc, rfl⟩))))
    · rw [if_neg hc]
      exact Or.inr (Or.inr (Or.inr (Or.inr (Or.inr ⟨rfl, rfl⟩))))
  · dsimp only
    by_cases hr : f.read_state_fails = true
    · rw [if_pos hr]
      exact Or.inl ⟨oid, rfl, hr, rfl⟩
    · rw [if_neg hr]
      by_cases hst : (order_state_read erp2 oid == "done" ||
          order_state_read erp2 oid == "cancel") = true
      · rw [if_pos hst]
        exact Or.inr (Or.inl ⟨oid, rfl, hst, rfl⟩)
      · rw [if_neg hst]
        by_cases hu : f.update_order_fails = true
        · rw [if_pos hu]
          exact Or.inr (Or.inr (Or.inl ⟨oid, rfl, hu, rfl⟩))
        · rw [if_neg hu]
          exact Or.inr (Or.inr (Or.inr (Or.inl
            ⟨oid, rfl, by simpa using hst, by simpa using hu, rfl⟩)))

theorem sync_step_partners (f : Faults) (cfg : Config) (data : ShopifyOrder)
    (existing : Option Nat) (partner_id sales_rep_id : Nat) (lines : List OrderLine)
    (erp2 : ErpState) :
    (sync_step f cfg data existing partner_id sales_rep_id lines erp2).1.partners =
      erp2.partners ∧
    (sync_step f cfg data existing partner_id sales_rep_id lines erp2).1.products =
      erp2.products := by
  rcases sync_step_cases f cfg data existing partner_id sales_rep_id lines erp2 with
    ⟨oid, _, _, h⟩ | ⟨oid, _, _, h⟩ | ⟨oid, _, _, h⟩ | ⟨oid, _, _, _, h⟩ |
    ⟨_, _, h⟩ | ⟨_, h⟩ <;> rw [h] <;> exact ⟨rfl, rfl⟩

/-- Reading a record by id returns the record itself when ids are unique. -/
theorem find_by_id_of_nodup {l : List SaleOrder} {o : SaleOrder}
    (hn : (l.map SaleOrder.id).Nodup) (ho : o ∈ l) :
    l.find? (fun x => x.id == o.id) = some o := by
  induction l with
  | nil => cases ho
  | cons a t ih =>
    simp only [List.map_cons, List.nodup_cons] at hn
    rcases List.mem_cons.mp ho with rfl | hot
    · exact List.find?_cons_of_pos _ (by simp)
    · have hfalse : (a.id == o.id) = false := by
        simp only [beq_eq_false_iff_ne, ne_eq]
        intro he
        exact hn.1 (he ▸ List.mem_map_of_mem SaleOrder.id hot)
      simp only [List.find?, hfalse]
      exact ih hn.2 hot

theorem process_order_data_busy (f : Faults) (cfg : Config) (data : ShopifyOrder)
    (s : SysState) (h : s.active_processing_ids.contains data.id = true) :
    process_order_data f cfg data s = (s, .ok (false, "Skipped")) := by
  unfold process_order_data
  rw [if_pos h]

theorem process_order_data_not_busy (f : Faults) (cfg : Config) (data : ShopifyOrder)
    (s : SysState) (h : s.active_processing_ids.contains data.id = false) :
    process_order_data f cfg data s =
      ({ active_processing_ids := s.active_processing_ids,
         erp := (process_body f cfg data s.erp).1 },
       (process_body f cfg data s.erp).2) := by
  unfold process_order_data
  rw [if_neg (by simp only [h]; exact Bool.false_ne_true)]
  rcases hb : process_body f cfg data s.erp with ⟨erp1, res⟩
  dsimp only
  rw [List.erase_cons_head]

/-- Zero orders with the reference is the same as the existence search
finding nothing. -/
theorem ref_count_zero_iff (erp : ErpState) (r : String) :
    order_ref_count erp r = 0 ↔
      erp.orders.find? (fun o => o.client_order_ref == r) = none := by
  simp [order_ref_count, List.countP_eq_zero, List.find?_eq_none]

/-- The update-path map leaves every client_order_ref in place, so the
per-reference order count is unchanged. -/
theorem countP_ref_map_update (l : List SaleOrder) (r : String) (pid : Nat)
    (lines : List OrderLine) (oid : Nat) :
    (l.map (fun o => if o.id == oid then updated_order pid lines o else o)).countP
        (fun o => o.client_order_ref == r) =
      l.countP (fun o => o.client_order_ref == r) := by
  induction l with
  | nil => rfl
  | cons a t ih =>
    simp only [List.map_cons, List.countP_cons, ih]
    by_cases ha : (a.id == oid) = true
    · rw [if_pos ha]
      rfl
    · rw [if_neg ha]

theorem res_ok_elim {res : Except String (Bool × String)} {bb : Bool} {x : String}
    (hres : res = .ok (bb, x)) {b : Bool} {m : String} (hm : res = .ok (b, m)) :
    b = bb ∧ m = x := by
  rw [hres] at hm
  injection hm with h1
  injection h1 with hb hm2
  exact ⟨hb.symm, hm2.symm⟩

theorem res_error_elim {res : Except String (Bool × String)} {e : String}
    (hres : res = .error e) {b : Bool} {m : String} (hm : res = .ok (b, m)) : False := by
  rw [hres] at hm
  exact Except.noConfusion hm

/-- Case analysis of the whole body: either the run ends before the sync
step, leaving the orders untouched (with the possible outcomes enumerated),
or it reaches the sync step with a nonempty line list, the stored existence
search and the resolved partner id; in both cases the intermediate state
erp2 keeps the orders and only extends partners and products. -/
theorem process_body_master (f : Faults) (cfg : Config) (data : ShopifyOrder)
    (erp : ErpState) :
    ∃ erp2 : ErpState,
      erp2.orders = erp.orders ∧
      erp.partners <+: erp2.partners ∧
      erp.products <+: erp2.products ∧
      (((process_body f cfg data erp).1 = erp2 ∧
          ((∃ e, (process_body f cfg data erp).2 = .error e) ∨
            (f.search_order_fails = true ∧
              (process_body f cfg data erp).2 = .ok (false, "Odoo Error")) ∨
            (f.create_partner_fails = true ∧
              (process_body f cfg data erp).2 = .ok (false, "Customer Error")) ∨
            (process_body f cfg data erp).2 = .ok (false, "No valid lines"))) ∨
        (∃ (pref : PartnerRef) (srep : Nat) (lines : List OrderLine), lines ≠ [] ∧
          process_body f cfg data erp =
            sync_step f cfg data
              ((erp.orders.find? (fun o => o.client_order_ref == client_ref data)).map
                (fun o => o.id))
              (pref.parent_id.getD pref.id) srep lines erp2)) := by
  by_cases hso : f.search_order_fails = true
  · have hpb : process_body f cfg data erp = (erp, .ok (false, "Odoo Error")) := by
      unfold process_body
      rw [if_pos hso]
    exact ⟨erp, rfl, List.prefix_refl _, List.prefix_refl _,
      Or.inl ⟨by rw [hpb], Or.inr (Or.inl ⟨hso, by rw [hpb]⟩)⟩⟩
  · rcases hrc : resolve_customer f (effective_company cfg) (effective_email data) data erp
      with ⟨erp1, prefOpt⟩
    have h1o : erp1.orders = erp.orders := by
      have h := resolve_customer_orders f (effective_company cfg) (effective_email data)
        data erp
      rw [hrc] at h
      exact h
    have h1pr : erp.partners <+: erp1.partners := by
      have h := resolve_customer_partners_prefix f (effective_company cfg)
        (effective_email data) data erp
      rw [hrc] at h
      exact h
    have h1prod : erp1.products = erp.products := by
      have h := resolve_customer_products f (effective_company cfg) (effective_email data)
        data erp
      rw [hrc] at h
      exact h
    rcases prefOpt with _ | pref
    · have hnone : (resolve_customer f (effective_company cfg) (effective_email data)
          data erp).2 = none := by
        rw [hrc]
      have hcf : f.create_partner_fails = true := resolve_customer_none_fault hnone
      have hpb : process_body f cfg data erp = (erp1, .ok (false, "Customer Error")) := by
        unfold process_body
        rw [if_neg hso]
        simp only [hrc]
      refine ⟨erp1, h1o, h1pr, by rw [← h1prod], Or.inl ⟨by rw [hpb],
        Or.inr (Or.inr (Or.inl ⟨hcf, by rw [hpb]⟩))⟩⟩
    · rcases hbl : build_lines f (effective_company cfg) data.line_items erp1
        with ⟨erp2, bres⟩
      have hb := build_lines_effect f (effective_company cfg) data.line_items erp1
      rw [hbl] at hb
      dsimp only at hb
      obtain ⟨h2o, h2p, h2pr⟩ := hb
      have hordr : erp2.orders = erp.orders := h2o.trans h1o
      have hpart : erp.partners <+: erp2.partners := by
        rw [h2p]
        exact h1pr
      have hprod : erp.products <+: erp2.products := by
        rw [← h1prod]
        exact h2pr
      rcases bres with e | lines
      · have hpb : process_body f cfg data erp = (erp2, .error e) := by
          unfold process_body
          rw [if_neg hso]
          simp only [hrc, hbl]
        exact ⟨erp2, hordr, hpart, hprod, Or.inl ⟨by rw [hpb], Or.inl ⟨e, by rw [hpb]⟩⟩⟩
      · by_cases hemp : lines.isEmpty = true
        · have hpb : process_body f cfg data erp = (erp2, .ok (false, "No valid lines")) := by
            unfold process_body
            rw [if_neg hso]
            simp only [hrc, hbl]
            rw [if_pos hemp]
          exact ⟨erp2, hordr, hpart, hprod, Or.inl ⟨by rw [hpb], Or.inr (Or.inr (Or.inr
            (by rw [hpb])))⟩⟩
        · have hlne : lines ≠ [] := by
            intro hnil
            exact hemp (by simp [hnil])
          have hpb : process_body f cfg data erp =
              sync_step f cfg data
                ((erp.orders.find? (fun o => o.client_order_ref == client_ref data)).map
                  (fun o => o.id))
                (pref.parent_id.getD pref.id)
                ((get_partner_salesperson erp1 (pref.parent_id.getD pref.id)).getD cfg.uid)
                lines erp2 := by
            unfold process_body
            rw [if_neg hso]
            simp only [hrc, hbl]
            rw [if_neg hemp]
          exact ⟨erp2, hordr, hpart, hprod, Or.inr ⟨pref, _, lines, hlne, hpb⟩⟩

/-! ## Claim theorems -/

/-- C1: process_order_data never creates a second sale order for one external
reference ONLINE_ plus order name: if at most one order carries the
reference, at most one does afterwards; if one already exists, no delivery
ever appends an order (the update path is taken, never a second create and
never the Synced outcome); and when none exists, the only successful
outcome is the create-path Synced. Holds for every fault pattern, so in
particular for two deliveries of the same payload run in sequence. -/
theorem C1_at_most_one_order_per_reference (f : Faults) (cfg : Config)
    (data : ShopifyOrder) (s : SysState)
    (h : order_ref_count s.erp (client_ref data) ≤ 1) :
    order_ref_count (process_order_data f cfg data s).1.erp (client_ref data) ≤ 1 ∧
    (1 ≤ order_ref_count s.erp (client_ref data) →
      (process_order_data f cfg data s).1.erp.orders.length = s.erp.orders.length ∧
      ∀ b m, (process_order_data f cfg data s).2 = .ok (b, m) → m ≠ "Synced") ∧
    (order_ref_count s.erp (client_ref data) = 0 →
      ∀ m, (process_order_data f cfg data s).2 = .ok (true, m) → m = "Synced") := by
  by_cases hbusy : s.active_processing_ids.contains data.id = true
  · rw [process_order_data_busy f cfg data s hbusy]
    refine ⟨h, fun _ => ⟨rfl, fun b m hm => ?_⟩, fun _ m hm => ?_⟩
    · obtain ⟨_, hm2⟩ := res_ok_elim rfl hm
      subst hm2
      decide
    · obtain ⟨hb, _⟩ := res_ok_elim rfl hm
      exact absurd hb (by decide)
  · have hnb : s.active_processing_ids.contains data.id = false := by
      revert hbusy
      cases s.active_processing_ids.contains data.id <;> simp
    rw [process_order_data_not_busy f cfg data s hnb]
    dsimp only
    obtain ⟨erp2, h2o, _, _, ⟨hst, hres⟩ | hsync⟩ := process_body_master f cfg data s.erp
    · rw [hst]
      have hcount : order_ref_count erp2 (client_ref data) =
          order_ref_count s.erp (client_ref data) := by
        unfold order_ref_count
        rw [h2o]
      refine ⟨by rw [hcount]; exact h, fun _ => ⟨by rw [h2o], fun b m hm => ?_⟩,
        fun _ m hm => ?_⟩
      · rcases hres with ⟨e, he⟩ | ⟨_, he⟩ | ⟨_, he⟩ | he
        · exact absurd hm (fun hmm => res_error_elim he hmm)
        · obtain ⟨_, hm2⟩ := res_ok_elim he hm
          subst hm2
          decide
        · obtain ⟨_, hm2⟩ := res_ok_elim he hm
          subst hm2
          decide
        · obtain ⟨_, hm2⟩ := res_ok_elim he hm
          subst hm2
          decide
      · rcases hres with ⟨e, he⟩ | ⟨_, he⟩ | ⟨_, he⟩ | he
        · exact absurd hm (fun hmm => res_error_elim he hmm)
        · exact absurd (res_ok_elim he hm).1 (by decide)
        · exact absurd (res_ok_elim he hm).1 (by decide)
        · exact absurd (res_ok_elim he hm).1 (by decide)
    · obtain ⟨pref, srep, lines, hlne, hpb⟩ := hsync
      rw [hpb]
      rcases sync_step_cases f cfg data
          ((s.erp.orders.find? (fun o => o.client_order_ref == client_ref data)).map
            (fun o => o.id))
          (pref.parent_id.getD pref.id) srep lines erp2 with
        ⟨oid, hex, _, hs⟩ | ⟨oid, hex, _, hs⟩ | ⟨oid, hex, _, hs⟩ |
        ⟨oid, hex, _, _, hs⟩ | ⟨hex, _, hs⟩ | ⟨hex, hs⟩
      · rw [hs]
        have hcount : order_ref_count erp2 (client_ref data) =
            order_ref_count s.erp (client_ref data) := by
          unfold order_ref_count
          rw [h2o]
        exact ⟨by rw [hcount]; exact h, fun _ => ⟨by rw [h2o],
          fun b m hm => absurd hm (fun hmm => res_error_elim rfl hmm)⟩,
          fun _ m hm => absurd hm (fun hmm => res_error_elim rfl hmm)⟩
      · rw [hs]
        have hcount : order_ref_count erp2 (client_ref data) =
            order_ref_count s.erp (client_ref data) := by
          unfold order_ref_count
          rw [h2o]
        refine ⟨by rw [hcount]; exact h, fun _ => ⟨by rw [h2o], fun b m hm => ?_⟩,
          fun h0 m hm => ?_⟩
        · obtain ⟨_, hm2⟩ := res_ok_elim rfl hm
          subst hm2
          decide
        · rw [ref_count_zero_iff] at h0
          rw [h0] at hex
          exact Option.noConfusion hex
      · rw [hs]
        have hcount : order_ref_count erp2 (client_ref data) =
            order_ref_count s.erp (client_ref data) := by
          unfold order_ref_count
          rw [h2o]
        refine ⟨by rw [hcount]; exact h, fun _ => ⟨by rw [h2o], fun b m hm => ?_⟩,
          fun _ m hm => ?_⟩
        · obtain ⟨_, hm2⟩ := res_ok_elim rfl hm
          subst hm2
          decide
        · exact absurd (res_ok_elim rfl hm).1 (by decide)
      · rw [hs]
        refine ⟨?_, fun _ => ⟨?_, fun b m hm => ?_⟩, fun h0 m hm => ?_⟩
        · show ((erp2.orders.map _).countP _ : Nat) ≤ 1
          rw [countP_ref_map_update]
          have : erp2.orders.countP (fun o => o.client_order_ref == client_ref data) =
              order_ref_count s.erp (client_ref data) := by
            unfold order_ref_count
            rw [h2o]
          rw [this]
          exact h
        · show (erp2.orders.map _).length = s.erp.orders.length
          rw [List.length_map, h2o]
        · obtain ⟨_, hm2⟩ := res_ok_elim rfl hm
          subst hm2
          decide
        · rw [ref_count_zero_iff] at h0
          rw [h0] at hex
          exact Option.noConfusion hex
      · rw [hs]
        have hcount : order_ref_count erp2 (client_ref data) =
            order_ref_count s.erp (client_ref data) := by
          unfold order_ref_count
          rw [h2o]
        refine ⟨by rw [hcount]; exact h, fun _ => ⟨by rw [h2o], fun b m hm => ?_⟩,
          fun _ m hm => ?_⟩
        · obtain ⟨_, hm2⟩ := res_ok_elim rfl hm
          subst hm2
          decide
        · exact absurd (res_ok_elim rfl hm).1 (by decide)
      · rw [hs]
        have hzero : order_ref_count s.erp (client_ref data) = 0 := by
          rw [ref_count_zero_iff]
          exact Option.map_eq_none'.mp hex
        refine ⟨?_, fun hge => absurd (hzero ▸ hge) (by decide), fun _ m hm => ?_⟩
        · show ((erp2.orders ++ [new_sale_order cfg data (pref.parent_id.getD pref.id)
              srep lines erp2.next_id]).countP
              (fun o => o.client_order_ref == client_ref data) : Nat) ≤ 1
          rw [List.countP_append]
          have h2 : erp2.orders.countP (fun o => o.client_order_ref == client_ref data)
              = 0 := by
            have : erp2.orders.countP (fun o => o.client_order_ref == client_ref data) =
                order_ref_count s.erp (client_ref data) := by
              unfold order_ref_count
              rw [h2o]
            rw [this, hzero]
          rw [h2]
          simp [new_sale_order]
        · exact (res_ok_elim rfl hm).2

theorem order_state_read_found {l : List SaleOrder} {o : SaleOrder} {r : String}
    (hids : (l.map SaleOrder.id).Nodup)
    (hfind : l.find? (fun x => x.client_order_ref == r) = some o)
    (erp2 : ErpState) (h2o : erp2.orders = l) :
    order_state_read erp2 o.id = o.state := by
  unfold order_state_read
  rw [h2o, find_by_id_of_nodup hids (List.mem_of_find?_eq_some hfind)]
  rfl

/-- C2: when the existence search finds an order whose state is terminal
(done or cancel), the delivery leaves the order records completely
unchanged, whatever ERP calls fail; and on a fault-free run every normal
return is the Skipped outcome, except the No-valid-lines validation skip
that fires before the state check when the payload yields no usable line
(the spec files that outcome under Skipped as well). -/
theorem C2_locked_order_skipped_and_immutable (f : Faults) (cfg : Config)
    (data : ShopifyOrder) (s : SysState) (o : SaleOrder)
    (hids : (s.erp.orders.map SaleOrder.id).Nodup)
    (hfind : s.erp.orders.find? (fun x => x.client_order_ref == client_ref data) = some o)
    (hterm : o.state = "done" ∨ o.state = "cancel") :
    (process_order_data f cfg data s).1.erp.orders = s.erp.orders ∧
    (∀ r, (process_order_data noFaults cfg data s).2 = .ok r →
      r.2 = "Skipped" ∨ r.2 = "No valid lines") := by
  have hterm_read : ∀ erp2 : ErpState, erp2.orders = s.erp.orders →
      (order_state_read erp2 o.id == "done" || order_state_read erp2 o.id == "cancel")
        = true := by
    intro erp2 h2o
    rw [order_state_read_found hids hfind erp2 h2o]
    rcases hterm with ht | ht <;> rw [ht] <;> decide
  constructor
  · by_cases hbusy : s.active_processing_ids.contains data.id = true
    · rw [process_order_data_busy f cfg data s hbusy]
    · have hnb : s.active_processing_ids.contains data.id = false := by
        revert hbusy
        cases s.active_processing_ids.contains data.id <;> simp
      rw [process_order_data_not_busy f cfg data s hnb]
      dsimp only
      obtain ⟨erp2, h2o, _, _, ⟨hst, _⟩ | hsync⟩ := process_body_master f cfg data s.erp
      · rw [hst, h2o]
      · obtain ⟨pref, srep, lines, _, hpb⟩ := hsync
        rw [hpb]
        rcases sync_step_cases f cfg data
            ((s.erp.orders.find? (fun x => x.client_order_ref == client_ref data)).map
              (fun x => x.id))
            (pref.parent_id.getD pref.id) srep lines erp2 with
          ⟨oid, hex, _, hs⟩ | ⟨oid, hex, _, hs⟩ | ⟨oid, hex, _, hs⟩ |
          ⟨oid, hex, hnt, _, hs⟩ | ⟨hex, _, hs⟩ | ⟨hex, hs⟩
        · rw [hs]; exact h2o
        · rw [hs]; exact h2o
        · rw [hs]; exact h2o
        · rw [hfind] at hex
          simp only [Option.map_some', Option.some.injEq] at hex
          rw [← hex] at hnt
          rw [hterm_read erp2 h2o] at hnt
          exact Bool.noConfusion hnt
        · rw [hfind] at hex
          exact Option.noConfusion hex
        · rw [hfind] at hex
          exact Option.noConfusion hex
  · intro r hm
    obtain ⟨b, m⟩ := r
    by_cases hbusy : s.active_processing_ids.contains data.id = true
    · rw [process_order_data_busy noFaults cfg data s hbusy] at hm
      obtain ⟨_, hm2⟩ := res_ok_elim rfl hm
      subst hm2
      exact Or.inl rfl
    · have hnb : s.active_processing_ids.contains data.id = false := by
        revert hbusy
        cases s.active_processing_ids.contains data.id <;> simp
      rw [process_order_data_not_busy noFaults cfg data s hnb] at hm
      dsimp only at hm
      obtain ⟨erp2, h2o, _, _, ⟨_, hres⟩ | hsync⟩ := process_body_master noFaults cfg data
        s.erp
      · rcases hres with ⟨e, he⟩ | ⟨hfault, _⟩ | ⟨hfault, _⟩ | he
        · exact absurd hm (fun hmm => res_error_elim he hmm)
        · exact absurd hfault (by decide)
        · exact absurd hfault (by decide)
        · obtain ⟨_, hm2⟩ := res_ok_elim he hm
          subst hm2
          exact Or.inr rfl
      · obtain ⟨pref, srep, lines, _, hpb⟩ := hsync
        rw [hpb] at hm
        rcases sync_step_cases noFaults cfg data
            ((s.erp.orders.find? (fun x => x.client_order_ref == client_ref data)).map
              (fun x => x.id))
            (pref.parent_id.getD pref.id) srep lines erp2 with
          ⟨oid, hex, hfault, hs⟩ | ⟨oid, hex, _, hs⟩ | ⟨oid, hex, hfault, hs⟩ |
          ⟨oid, hex, hnt, _, hs⟩ | ⟨hex, hfault, hs⟩ | ⟨hex, hs⟩
        · exact absurd hfault (by decide)
        · rw [hs] at hm
          obtain ⟨_, hm2⟩ := res_ok_elim rfl hm
          subst hm2
          exact Or.inl rfl
        · exact absurd hfault (by decide)
        · rw [hfind] at hex
          simp only [Option.map_some', Option.some.injEq] at hex
          rw [← hex] at hnt
          rw [hterm_read erp2 h2o] at hnt
          exact Bool.noConfusion hnt
        · rw [hfind] at hex
          exact Option.noConfusion hex
        · rw [hfind] at hex
          exact Option.noConfusion hex

/-- C3: the in-flight guard. If the order identifier is already registered,
the call returns the Skipped result immediately with the whole system state
untouched (no ERP access); if it is not, the identifier registered by the
call is released again on every exit path, faults and uncaught exceptions
included, so the registry is exactly what it was before. -/
theorem C3_inflight_guard_and_release (f : Faults) (cfg : Config) (data : ShopifyOrder)
    (s : SysState) :
    (s.active_processing_ids.contains data.id = true →
      process_order_data f cfg data s = (s, .ok (false, "Skipped"))) ∧
    (s.active_processing_ids.contains data.id = false →
      (process_order_data f cfg data s).1.active_processing_ids =
        s.active_processing_ids) := by
  constructor
  · intro h
    exact process_order_data_busy f cfg data s h
  · intro h
    rw [process_order_data_not_busy f cfg data s h]

theorem process_body_partners (f : Faults) (cfg : Config) (data : ShopifyOrder)
    (erp : ErpState) (hso : f.search_order_fails = false) :
    (process_body f cfg data erp).1.partners =
      (resolve_customer f (effective_company cfg) (effective_email data) data erp).1.partners
    := by
  unfold process_body
  rw [if_neg (by simp [hso])]
  rcases hrc : resolve_customer f (effective_company cfg) (effective_email data) data erp
    with ⟨erp1, prefOpt⟩
  rcases prefOpt with _ | pref
  · simp only [hrc]
  · simp only [hrc]
    rcases hbl : build_lines f (effective_company cfg) data.line_items erp1
      with ⟨erp2, bres⟩
    have hb := build_lines_effect f (effective_company cfg) data.line_items erp1
    rw [hbl] at hb
    dsimp only at hb
    rcases bres with e | lines
    · simp only [hbl]
      exact hb.2.1
    · simp only [hbl]
      by_cases hemp : lines.isEmpty = true
      · rw [if_pos hemp]
        exact hb.2.1
      · rw [if_neg hemp]
        exact (sync_step_partners f cfg data _ _ _ lines erp2).1.trans hb.2.1

/-- C10: reconciliation is not atomic. The partner and product lists only
ever grow (records already present are never removed or rewritten, whatever
the outcome, locked-state skips and failed order writes included); and
whenever the guard is passed, the existence search works, no partner
matches the email and the partner create succeeds, the newly created
partner is still there at the end, whatever happens afterwards. -/
theorem C10_created_records_persist (f : Faults) (cfg : Config) (data : ShopifyOrder)
    (s : SysState) :
    (s.erp.partners <+: (process_order_data f cfg data s).1.erp.partners ∧
      s.erp.products <+: (process_order_data f cfg data s).1.erp.products) ∧
    (s.active_processing_ids.contains data.id = false →
      f.search_order_fails = false →
      search_partner_by_email s.erp (effective_email data) = none →
      f.create_partner_fails = false →
      s.erp.partners.length + 1 ≤
        (process_order_data f cfg data s).1.erp.partners.length) := by
  constructor
  · by_cases hbusy : s.active_processing_ids.contains data.id = true
    · rw [process_order_data_busy f cfg data s hbusy]
      exact ⟨List.prefix_refl _, List.prefix_refl _⟩
    · have hnb : s.active_processing_ids.contains data.id = false := by
        revert hbusy
        cases s.active_processing_ids.contains data.id <;> simp
      rw [process_order_data_not_busy f cfg data s hnb]
      dsimp only
      obtain ⟨erp2, _, hp, hpr, ⟨hst, _⟩ | hsync⟩ := process_body_master f cfg data s.erp
      · rw [hst]
        exact ⟨hp, hpr⟩
      · obtain ⟨pref, srep, lines, _, hpb⟩ := hsync
        rw [hpb]
        obtain ⟨hsp, hsprod⟩ := sync_step_partners f cfg data
          ((s.erp.orders.find? (fun x => x.client_order_ref == client_ref data)).map
            (fun x => x.id))
          (pref.parent_id.getD pref.id) srep lines erp2
        rw [hsp, hsprod]
        exact ⟨hp, hpr⟩
  · intro hnb hso hsp hcp
    rw [process_order_data_not_busy f cfg data s hnb]
    dsimp only
    rw [process_body_partners f cfg data s.erp hso]
    exact Nat.le_of_eq (resolve_customer_created f (effective_company cfg)
      (effective_email data) data s.erp hsp hcp).1.symm

/-- C7 amended: a delivery that updates an editable existing order replaces
its line items wholesale and sets the shipping- and invoice-partner fields
to the resolved partner; nothing else of the record changes: in particular
the note field is left as it was and no message is posted to the record
activity log (process_order_data never writes the note and never calls
post_message). -/
theorem C7_amended_update_replaces_lines_only (f : Faults) (cfg : Config)
    (data : ShopifyOrder) (s : SysState) (o : SaleOrder) (erp1 erp2 : ErpState)
    (pref : PartnerRef) (lines : List OrderLine)
    (hnb : s.active_processing_ids.contains data.id = false)
    (hso : f.search_order_fails = false)
    (hids : (s.erp.orders.map SaleOrder.id).Nodup)
    (hfind : s.erp.orders.find? (fun x => x.client_order_ref == client_ref data) = some o)
    (hrc : resolve_customer f (effective_company cfg) (effective_email data) data s.erp
      = (erp1, some pref))
    (hbl : build_lines f (effective_company cfg) data.line_items erp1 = (erp2, .ok lines))
    (hlne : lines ≠ [])
    (hread : f.read_state_fails = false)
    (hnotdone : o.state ≠ "done") (hnotcancel : o.state ≠ "cancel")
    (hupd : f.update_order_fails = false) :
    (process_order_data f cfg data s).2 = .ok (true, "Updated") ∧
    (process_order_data f cfg data s).1.erp.orders =
      s.erp.orders.map (fun x => if x.id == o.id then
        updated_order (pref.parent_id.getD pref.id) lines x else x) ∧
    ∀ x ∈ (process_order_data f cfg data s).1.erp.orders, x.id = o.id →
      x.order_line = lines ∧ x.note = o.note ∧ x.messages = o.messages ∧
      x.partner_shipping_id = pref.parent_id.getD pref.id ∧
      x.partner_invoice_id = pref.parent_id.getD pref.id ∧
      x.state = o.state ∧ x.client_order_ref = o.client_order_ref := by
  have h1o : erp1.orders = s.erp.orders := by
    have h := resolve_customer_orders f (effective_company cfg) (effective_email data)
      data s.erp
    rw [hrc] at h
    exact h
  have hb := build_lines_effect f (effective_company cfg) data.line_items erp1
  rw [hbl] at hb
  dsimp only at hb
  have h2o : erp2.orders = s.erp.orders := hb.1.trans h1o
  have hempne : ¬(lines.isEmpty = true) := by
    intro hemp
    exact hlne (List.isEmpty_iff.mp hemp)
  have hpb : process_body f cfg data s.erp =
      sync_step f cfg data (some o.id) (pref.parent_id.getD pref.id)
        ((get_partner_salesperson erp1 (pref.parent_id.getD pref.id)).getD cfg.uid)
        lines erp2 := by
    unfold process_body
    rw [if_neg (by simp [hso])]
    simp only [hrc, hbl]
    rw [if_neg hempne]
    simp only [hfind, Option.map_some']
  have hsteq := order_state_read_found hids hfind erp2 h2o
  have hcfalse : (order_state_read erp2 o.id == "done" ||
      order_state_read erp2 o.id == "cancel") = false := by
    rw [hsteq]
    simp [hnotdone, hnotcancel]
  have hsync : sync_step f cfg data (some o.id) (pref.parent_id.getD pref.id)
      ((get_partner_salesperson erp1 (pref.parent_id.getD pref.id)).getD cfg.uid)
      lines erp2 =
      ({ erp2 with orders := erp2.orders.map (fun x =>
           if x.id == o.id then updated_order (pref.parent_id.getD pref.id) lines x
           else x) },
       .ok (true, "Updated")) := by
    unfold sync_step
    dsimp only
    rw [if_neg (by simp [hread])]
    rw [if_neg (by simp [hcfalse])]
    rw [if_neg (by simp [hupd])]
  rw [process_order_data_not_busy f cfg data s hnb]
  dsimp only
  rw [hpb, hsync]
  dsimp only
  rw [h2o]
  refine ⟨rfl, rfl, ?_⟩
  intro x hx hxid
  obtain ⟨y, hy, hxy⟩ := List.mem_map.mp hx
  have ho : o ∈ s.erp.orders := List.mem_of_find?_eq_some hfind
  by_cases hyid : (y.id == o.id) = true
  · have hg : x = updated_order (pref.parent_id.getD pref.id) lines y := by
      rw [← hxy, if_pos hyid]
    have hyo : y = o :=
      List.inj_on_of_nodup_map hids hy ho (beq_iff_eq.mp hyid)
    subst hyo
    subst hg
    exact ⟨rfl, rfl, rfl, rfl, rfl, rfl, rfl⟩
  · have hg : x = y := by
      rw [← hxy, if_neg hyid]
    subst hg
    exact absurd hxid (by simpa using hyid)

/-- C5: the discount computation returns the exact percentage for positive
price and quantity (20 for the 10/2/4 example) and 0 when the price is not
positive; but for a positive price and zero quantity the guard does not
fire and the division by price times quantity raises ZeroDivisionError
(the none result), contradicting the claim that the result is 0 whenever
price and quantity are not both positive. -/
theorem C5_discount_zero_quantity_divides_by_zero :
    discount_pct 10 2 4 = some 20 ∧
    discount_pct 0 2 4 = some 0 ∧
    discount_pct 0 0 4 = some 0 ∧
    discount_pct 10 0 4 = none := by
  decide

/-- C8: the zero-stock guard of perform_inventory_sync is inverted. With the
sync-zero-stock setting disabled and a zero ERP total, the product is
compared and pushed (here storefront has 5, so 0 is pushed); with the
setting enabled the zero-total product is skipped; a positive total is
pushed either way. The claim (and the spec) say the exact opposite for the
zero-total cases. -/
theorem C8_sync_zero_stock_guard_inverted :
    inventory_sync_step false 0 (some "SKU1") (some 5) = .push 0 ∧
    inventory_sync_step true 0 (some "SKU1") (some 5) = .skip_zero ∧
    inventory_sync_step true 7 (some "SKU1") (some 5) = .push 7 ∧
    inventory_sync_step false 7 (some "SKU1") (some 5) = .push 7 := by
  decide

theorem line_find_or_create_archived (f : Faults) (c : Option Nat) (item : LineItem)
    (sku : String) (erp : ErpState) (aid : Nat)
    (hs : search_product_by_sku erp sku c = none)
    (ha : check_product_exists_by_sku erp sku c = some aid) :
    line_find_or_create f c item sku erp = (erp, none) := by
  unfold line_find_or_create
  rw [hs]
  dsimp only
  rw [ha]

theorem line_step_archived (f : Faults) (c : Option Nat) (item : LineItem)
    (sku : String) (erp : ErpState) (aid : Nat)
    (hsku : item.sku = some sku)
    (hs : search_product_by_sku erp sku c = none)
    (ha : check_product_exists_by_sku erp sku c = some aid) :
    line_step f c item erp = (erp, .ok none) := by
  unfold line_step
  rw [hsku]
  dsimp only
  rw [line_find_or_create_archived f c item sku erp aid hs ha]

theorem line_find_or_create_some (f : Faults) (c : Option Nat) (item : LineItem)
    (sku : String) (erp erpA : ErpState) (pid : Nat)
    (h : line_find_or_create f c item sku erp = (erpA, some pid)) :
    ∃ p ∈ erpA.products, p.id = pid ∧ p.active = true := by
  unfold line_find_or_create at h
  rcases h1 : search_product_by_sku erp sku c with _ | pid0
  · rw [h1] at h
    dsimp only at h
    rcases h2 : check_product_exists_by_sku erp sku c with _ | aid
    · rw [h2] at h
      dsimp only at h
      by_cases hf : f.create_product_fails = true
      · rw [if_pos hf] at h
        injection h with hA hB
        exact Option.noConfusion hB
      · rw [if_neg hf] at h
        injection h with hA hB
        subst hA
        exact search_product_by_sku_spec hB
    · rw [h2] at h
      dsimp only at h
      injection h with hA hB
      exact Option.noConfusion hB
  · rw [h1] at h
    dsimp only at h
    injection h with hA hB
    subst hA
    injection hB with hpid
    subst hpid
    exact search_product_by_sku_spec h1

theorem line_step_active (f : Faults) (c : Option Nat) (item : LineItem)
    (erp erp1 : ErpState) (ol : OrderLine)
    (h : line_step f c item erp = (erp1, .ok (some ol))) :
    ∃ p ∈ erp1.products, p.id = ol.product_id ∧ p.active = true := by
  unfold line_step at h
  rcases hsku : item.sku with _ | sku
  · rw [hsku] at h
    dsimp only at h
    injection h with hA hB
    injection hB with hC
    exact Option.noConfusion hC
  · rw [hsku] at h
    dsimp only at h
    rcases hl : line_find_or_create f c item sku erp with ⟨erpA, pidOpt⟩
    rw [hl] at h
    rcases pidOpt with _ | pid
    · dsimp only at h
      injection h with hA hB
      injection hB with hC
      exact Option.noConfusion hC
    · dsimp only at h
      rcases hd : discount_pct item.price item.quantity item.total_discount with _ | pct
      · rw [hd] at h
        injection h with hA hB
        exact Except.noConfusion hB
      · rw [hd] at h
        injection h with hA hB
        subst hA
        injection hB with hC
        injection hC with hD
        obtain ⟨p, hp, hpid, hact⟩ := line_find_or_create_some f c item sku erp _ pid hl
        refine ⟨p, hp, ?_, hact⟩
        rw [hpid, ← hD]

theorem build_lines_lines_active (f : Faults) (c : Option Nat) :
    ∀ (items : List LineItem) (erp erp2 : ErpState) (lines : List OrderLine),
      build_lines f c items erp = (erp2, .ok lines) →
      ∀ ol ∈ lines, ∃ p ∈ erp2.products, p.id = ol.product_id ∧ p.active = true := by
  intro items
  induction items with
  | nil =>
    intro erp erp2 lines h ol hol
    unfold build_lines at h
    injection h with hA hB
    injection hB with hC
    subst hC
    cases hol
  | cons item rest ih =>
    intro erp erp2 lines h ol hol
    unfold build_lines at h
    rcases hs : line_step f c item erp with ⟨erpA, res⟩
    rw [hs] at h
    rcases res with e | olOpt
    · dsimp only at h
      injection h with hA hB
      exact Except.noConfusion hB
    · dsimp only at h
      rcases hb : build_lines f c rest erpA with ⟨erpB, res2⟩
      rw [hb] at h
      rcases res2 with e2 | ls
      · dsimp only at h
        injection h with hA hB
        exact Except.noConfusion hB
      · dsimp only at h
        injection h with hA hB
        subst hA
        injection hB with hlines
        subst hlines
        rcases List.mem_append.mp hol with holh | holt
        · rcases olOpt with _ | ol0
          · cases holh
          · have hol0 : ol = ol0 := by simpa using holh
            subst hol0
            obtain ⟨p, hp, hpid, hact⟩ := line_step_active f c item erp erpA ol hs
            have hpre : erpA.products <+: erpB.products := by
              have hh := (build_lines_effect f c rest erpA).2.2
              rw [hb] at hh
              exact hh
            exact ⟨p, hpre.subset hp, hpid, hact⟩
        · exact ih erpA erpB ls hb ol holt

theorem line_find_or_create_creates (f : Faults) (c : Option Nat) (item : LineItem)
    (sku : String) (erp : ErpState)
    (hch : (line_find_or_create f c item sku erp).1.products ≠ erp.products) :
    check_product_exists_by_sku erp sku c = none := by
  unfold line_find_or_create at hch
  rcases h1 : search_product_by_sku erp sku c with _ | pid
  · rw [h1] at hch
    dsimp only at hch
    rcases h2 : check_product_exists_by_sku erp sku c with _ | aid
    · rfl
    · rw [h2] at hch
      dsimp only at hch
      exact absurd rfl hch
  · rw [h1] at hch
    dsimp only at hch
    exact absurd rfl hch

/-- C6: archived products are never attached to an order line. When the sku
matches no active product but some (archived) product, the line iteration
leaves the state untouched and emits no line; every line the builder emits
references a product that is active in the resulting state; and the
auto-create path (the only thing that changes the product list) fires only
when the sku matches no product at all, active or archived. -/
theorem C6_archived_products_excluded (f : Faults) (c : Option Nat) :
    (∀ (erp : ErpState) (item : LineItem) (sku : String) (aid : Nat),
      item.sku = some sku →
      search_product_by_sku erp sku c = none →
      check_product_exists_by_sku erp sku c = some aid →
      line_step f c item erp = (erp, .ok none)) ∧
    (∀ (items : List LineItem) (erp erp2 : ErpState) (lines : List OrderLine),
      build_lines f c items erp = (erp2, .ok lines) →
      ∀ ol ∈ lines, ∃ p ∈ erp2.products, p.id = ol.product_id ∧ p.active = true) ∧
    (∀ (erp : ErpState) (item : LineItem) (sku : String),
      (line_find_or_create f c item sku erp).1.products ≠ erp.products →
      check_product_exists_by_sku erp sku c = none) :=
  ⟨fun erp item sku aid h1 h2 h3 => line_step_archived f c item sku erp aid h1 h2 h3,
   fun items erp erp2 lines h => build_lines_lines_active f c items erp erp2 lines h,
   fun erp item sku h => line_find_or_create_creates f c item sku erp h⟩

theorem cleanup_go_orphan (S : List String) (k : String) :
    ∀ (ps : List SfProduct) (seen : List String) (p : SfProduct),
      p ∈ cleanup_go S seen ps → p.sku = some k → S.contains k = false →
      p.status = "archived" := by
  intro ps
  induction ps with
  | nil =>
    intro seen p hp
    cases hp
  | cons sp rest ih =>
    intro seen p hp hsku hnot
    unfold cleanup_go at hp
    rcases hsp : sp.sku with _ | sku
    · rw [hsp] at hp
      rcases List.mem_cons.mp hp with rfl | h
      · rw [hsp] at hsku
        exact Option.noConfusion hsku
      · exact ih seen p h hsku hnot
    · rw [hsp] at hp
      dsimp only at hp
      by_cases hna : (!(S.contains sku) || seen.contains sku) = true
      · rw [if_pos hna] at hp
        rcases List.mem_cons.mp hp with rfl | h
        · rfl
        · exact ih seen p h hsku hnot
      · rw [if_neg hna] at hp
        rcases List.mem_cons.mp hp with rfl | h
        · rw [hsp] at hsku
          injection hsku with hk
          subst hk
          have hc : S.contains sku = true := by
            revert hna
            cases S.contains sku <;> simp
          rw [hnot] at hc
          exact Bool.noConfusion hc
        · exact ih (sku :: seen) p h hsku hnot

theorem cleanup_go_countP (S : List String) (k : String) :
    ∀ (ps : List SfProduct) (seen : List String),
      (cleanup_go S seen ps).countP (fun p => active_with_sku p k) ≤
        (if seen.contains k = true then 0 else 1) := by
  intro ps
  induction ps with
  | nil =>
    intro seen
    unfold cleanup_go
    have : ([] : List SfProduct).countP (fun p => active_with_sku p k) = 0 := rfl
    rw [this]
    exact Nat.zero_le _
  | cons sp rest ih =>
    intro seen
    unfold cleanup_go
    rcases hsp : sp.sku with _ | sku
    · rw [List.countP_cons]
      have hfalse : active_with_sku sp k = false := by
        unfold active_with_sku
        rw [hsp]
        exact Bool.and_false _
      rw [hfalse]
      simpa using ih seen
    · dsimp only
      by_cases hna : (!(S.contains sku) || seen.contains sku) = true
      · rw [if_pos hna, List.countP_cons]
        have hfalse : active_with_sku { sku := some sku, status := "archived" } k
            = false := rfl
        rw [hfalse]
        simpa using ih seen
      · rw [if_neg hna, List.countP_cons]
        have hcsku : S.contains sku = true ∧ seen.contains sku = false := by
          revert hna
          cases S.contains sku <;> cases seen.contains sku <;> simp
        by_cases hks : k = sku
        · have htail := ih (sku :: seen)
          rw [show ((sku :: seen).contains k) = true by simp [hks]] at htail
          rw [if_pos rfl] at htail
          have hk2 : seen.contains k = false := by
            rw [hks]
            exact hcsku.2
          rw [hk2, if_neg Bool.false_ne_true]
          split <;> omega
        · have hne : sku ≠ k := fun hh => hks hh.symm
          have hfalse : active_with_sku sp k = false := by
            unfold active_with_sku
            rw [hsp]
            have hbeq : ((some sku == some k) : Bool) = false := by
              simp [hne]
            rw [hbeq]
            exact Bool.and_false _
          rw [hfalse, if_neg Bool.false_ne_true]
          have htail := ih (sku :: seen)
          rw [show ((sku :: seen).contains k) = seen.contains k by
            simp [List.contains_cons, hks]] at htail
          by_cases hk2 : seen.contains k = true
          · rw [hk2, if_pos rfl] at htail
            rw [hk2, if_pos rfl]
            omega
          · have hk2f : seen.contains k = false := by
              revert hk2
              cases seen.contains k <;> simp
            rw [hk2f, if_neg Bool.false_ne_true] at htail
            rw [hk2f, if_neg Bool.false_ne_true]
            omega

/-- C9: after a cleanup pass over the storefront list with ERP-active sku
set S, every listed product whose sku lies outside S is archived; for each
sku there is at most one active entry left; and every remaining active
entry with a sku has its sku in S. -/
theorem C9_cleanup_no_orphans_no_duplicates (S : List String) (ps : List SfProduct)
    (k : String) :
    (∀ p ∈ cleanup_shopify_products S ps, p.sku = some k → S.contains k = false →
      p.status = "archived") ∧
    (cleanup_shopify_products S ps).countP (fun p => active_with_sku p k) ≤ 1 ∧
    (∀ p ∈ cleanup_shopify_products S ps, p.status = "active" → p.sku = some k →
      S.contains k = true) := by
  refine ⟨?_, ?_, ?_⟩
  · intro p hp hsku hnot
    exact cleanup_go_orphan S k ps [] p hp hsku hnot
  · have h := cleanup_go_countP S k ps []
    simpa using h
  · intro p hp hact hsku
    by_cases hc : S.contains k = true
    · exact hc
    · have hc0 : S.contains k = false := by
        revert hc
        cases S.contains k <;> simp
      have := cleanup_go_orphan S k ps [] p hp hsku hc0
      rw [hact] at this
      exact absurd this (by decide)

/-- C4 counterexample: on the end-to-end 1001 scenario exactly one order is
created, it has one order line and both its partner fields are the parent
id 1 (the payload does carry a Standard shipping line, but no
shipping-product line is built, and the shipping partner is not the child
record 2); this contradicts the claimed two order lines and child shipping
partner. -/
theorem C4_counterexample_one_line_parent_shipping :
    (process_order_data noFaults cfg4 order1001 s4).1.erp.orders.map
        (fun o => (o.order_line.length, o.partner_invoice_id, o.partner_shipping_id))
      = [(1, 1, 1)] ∧
    order1001.shipping_lines = [{ title := "Standard", price := 5 }] ∧
    childP.id = 2 ∧ childP.parent_id = some 1 :=
  ⟨rfl, rfl, rfl, rfl⟩

/-- C4 amended: on the end-to-end 1001 scenario the reconciliation creates
exactly one order with reference ONLINE_number-1001, with one order line
(product X1, quantity 2, unit price 10, discount 20 percent), with both
invoice- and shipping-partner equal to the parent partner id; the payload
shipping line is ignored and no partner record is created. -/
theorem C4_amended_scenario_result :
    (process_order_data noFaults cfg4 order1001 s4).2 = .ok (true, "Synced") ∧
    (process_order_data noFaults cfg4 order1001 s4).1.erp.partners = s4.erp.partners ∧
    (process_order_data noFaults cfg4 order1001 s4).1.erp.orders =
      [{ id := 100, name := "ONLINE_#1001", client_order_ref := "ONLINE_#1001",
         partner_id := 1, partner_invoice_id := 1, partner_shipping_id := 1,
         user_id := 5, state := "draft",
         order_line := [{ product_id := 10, product_uom_qty := 2, price_unit := 10,
                          name := "X1 Widget", discount := 20 }],
         note := none, messages := [], company_id := none }] :=
  ⟨rfl, rfl, rfl⟩

/-- C7 counterexample: a delivery whose payload carries a note updates the
existing editable order (lines replaced), but the record note keeps its old
value and the record message log stays empty: the update writes no note and
posts no audit message, contradicting the claim. -/
theorem C7_counterexample_note_not_updated_no_message :
    (process_order_data noFaults cfg4 order1001 s7).2 = .ok (true, "Updated") ∧
    (process_order_data noFaults cfg4 order1001 s7).1.erp.orders.map
        (fun o => (o.note, o.messages, o.order_line))
      = [(some "old note", [],
          [{ product_id := 10, product_uom_qty := 2, price_unit := 10,
             name := "X1 Widget", discount := 20 }])] ∧
    order1001.note = some "pay by card" ∧ o20.note = some "old note" :=
  ⟨rfl, rfl, rfl, rfl⟩

/-! ## Witnesses -/

theorem C1_witness_second_delivery :
    order_ref_count (process_order_data noFaults cfg4 order1001 s7).1.erp
      (client_ref order1001) ≤ 1 ∧
    (process_order_data noFaults cfg4 order1001 s7).1.erp.orders.length =
      s7.erp.orders.length :=
  ⟨(C1_at_most_one_order_per_reference noFaults cfg4 order1001 s7 (by decide)).1,
   ((C1_at_most_one_order_per_reference noFaults cfg4 order1001 s7 (by decide)).2.1
      (by decide)).1⟩

theorem C2_witness_done_order_untouched :
    (process_order_data noFaults cfg4 order1001 sDone).1.erp.orders =
      sDone.erp.orders :=
  (C2_locked_order_skipped_and_immutable noFaults cfg4 order1001 sDone oDone
    (by decide) (by decide) (Or.inl rfl)).1

theorem C3_witness_busy_and_release :
    process_order_data noFaults cfg4 order1001 sBusy = (sBusy, .ok (false, "Skipped")) ∧
    (process_order_data noFaults cfg4 order1001 s4).1.active_processing_ids = [] :=
  ⟨(C3_inflight_guard_and_release noFaults cfg4 order1001 sBusy).1 (by decide),
   (C3_inflight_guard_and_release noFaults cfg4 order1001 s4).2 (by decide)⟩

theorem C6_witness_archived_sku_skipped :
    line_step noFaults none itemA erpA = (erpA, .ok none) :=
  (C6_archived_products_excluded noFaults none).1 erpA itemA "A1" 3 rfl (by decide)
    (by decide)

theorem C7_witness_update_keeps_note :
    (process_order_data noFaults cfg4 order1001 s7).2 = .ok (true, "Updated") :=
  (C7_amended_update_replaces_lines_only noFaults cfg4 order1001 s7 o20 s7.erp s7.erp
    ⟨2, some 1⟩
    [{ product_id := 10, product_uom_qty := 2, price_unit := 10, name := "X1 Widget",
       discount := 20 }]
    rfl rfl (by decide) (by decide) rfl rfl (by decide) rfl (by decide) (by decide)
    rfl).1

theorem C9_witness_orphan_archived :
    (cleanup_shopify_products ["A"] psW).countP (fun p => active_with_sku p "A") ≤ 1 ∧
    SfProduct.status { sku := some "B", status := "archived" } = "archived" :=
  ⟨(C9_cleanup_no_orphans_no_duplicates ["A"] psW "A").2.1,
   (C9_cleanup_no_orphans_no_duplicates ["A"] psW "B").1
     { sku := some "B", status := "archived" } (by decide) rfl (by decide)⟩

theorem C10_witness_partner_persists_after_locked_skip :
    (process_order_data noFaults cfg4 order1002 sDone).2 = .ok (true, "Skipped") ∧
    sDone.erp.partners.length + 1 ≤
      (process_order_data noFaults cfg4 order1002 sDone).1.erp.partners.length :=
  ⟨rfl,
   (C10_created_records_persist noFaults cfg4 order1002 sDone).2 rfl rfl (by decide) rfl⟩

end Connector
